import Mathlib

/-!
Shallow embedding of the BioCro module-composition and time-integration core:
the quantity store, representative steady and derivative modules
(`thermal_time_linear`, `ball_berry`, `senescence_coefficient_logistic`,
`penman_monteith_leaf_temperature`), the light macro-environment function
`lightME`, the `integrator::integrate` branch logic, the multilayer quantity
name generator, and the `SystemSolverFactory` registry.

C++ `double` values are modelled as rationals (`ℚ`); transcendental library
functions (`exp`, `pow`) and repository functions whose bodies are not part of
the embedded sources (`ball_berry_gs`) are taken as explicit function
parameters, so every embedded operation stays executable and manifestly pure.
-/

/-- A quantity store: a mapping from quantity name to a numeric value.
Embeds the C++ `state_map` / `std::unordered_map<std::string, double>`. -/
def Store : Type := String → ℚ

/-- Writing one named quantity of a store, as done by the C++ `update(op, value)`
through the bound output pointer. -/
def Store.update (s : Store) (name : String) (v : ℚ) : Store :=
  fun n => if n = name then v else s n

theorem Store.update_same (s : Store) (name : String) (v : ℚ) :
    Store.update s name v name = v := by
  simp [Store.update]

theorem Store.update_other (s : Store) (name other : String) (v : ℚ)
    (h : other ≠ name) : Store.update s name v other = s other := by
  simp [Store.update, h]

namespace thermal_time_linear

/-- Input quantity names returned by `thermal_time_linear::get_inputs()`. -/
def get_inputs : List String := ["temp", "tbase"]

/-- Output quantity names returned by `thermal_time_linear::get_outputs()`. -/
def get_outputs : List String := ["TTc"]

/-- Names bound from the input store by the `thermal_time_linear` constructor
(`get_input(input_parameters, ...)` calls, in source order). -/
def bound_inputs : List String := ["temp", "tbase"]

/-- Names whose output slots the constructor binds and `do_operation` writes
(`get_op(output_parameters, ...)` / `update(TTc_op, ...)`). -/
def written_outputs : List String := ["TTc"]

/-- The hourly thermal-time rate computed by `thermal_time_linear::do_operation`:
the daily rate is `0` when `temp <= tbase` and `temp - tbase` otherwise, and the
result is the daily rate divided by `24`. -/
def rate_per_hour (temp tbase : ℚ) : ℚ :=
  (if temp ≤ tbase then 0 else temp - tbase) / 24

/-- The full store effect of `thermal_time_linear::do_operation`: it writes the
hourly rate to the `TTc` output slot. -/
def do_operation (input output : Store) : Store :=
  output.update "TTc" (rate_per_hour (input "temp") (input "tbase"))

end thermal_time_linear

namespace ball_berry

/-- Input quantity names returned by `ball_berry::get_inputs()`. -/
def get_inputs : List String :=
  ["net_assimilation_rate", "Catm", "rh", "b0", "b1", "gbw",
   "leaf_temperature", "temp"]

/-- Output quantity names returned by `ball_berry::get_outputs()`. -/
def get_outputs : List String := ["leaf_stomatal_conductance"]

/-- Names bound from the input store by the `ball_berry` constructor
(`get_input(input_quantities, ...)` calls, in source order). -/
def bound_inputs : List String :=
  ["net_assimilation_rate", "Catm", "rh", "b0", "b1", "gbw",
   "leaf_temperature", "temp"]

/-- Names whose output slots the constructor binds and `do_operation` writes. -/
def written_outputs : List String := ["leaf_stomatal_conductance"]

/-- The store effect of `ball_berry::do_operation`: it writes
`ball_berry_gs(...)` applied to the eight bound inputs to the
`leaf_stomatal_conductance` output slot.  The body of `ball_berry_gs` lives in
`ball_berry_gs.h`, outside the embedded sources, so it is passed as an explicit
pure function parameter `gs`. -/
def do_operation (gs : ℚ → ℚ → ℚ → ℚ → ℚ → ℚ → ℚ → ℚ → ℚ)
    (input output : Store) : Store :=
  output.update "leaf_stomatal_conductance"
    (gs (input "net_assimilation_rate") (input "Catm") (input "rh")
      (input "b0") (input "b1") (input "gbw") (input "leaf_temperature")
      (input "temp"))

end ball_berry

/-- The logistic senescence coefficient `ksene(rate, alpha, beta, DVI) =
rate / (1 + exp(alpha + beta * DVI))` from
`senescence_coefficient_logistic.h`.  The C library `exp` is passed as the
explicit function parameter `qexp`. -/
def ksene (qexp : ℚ → ℚ) (rate alpha beta DVI : ℚ) : ℚ :=
  rate / (1 + qexp (alpha + beta * DVI))

namespace senescence_coefficient_logistic

/-- Input quantity names returned by
`senescence_coefficient_logistic::get_inputs()`. -/
def get_inputs : List String :=
  ["DVI", "alphaSeneStem", "alphaSeneLeaf", "betaSeneStem", "betaSeneLeaf",
   "rateSeneLeaf", "rateSeneStem", "alphaSeneRoot", "alphaSeneRhizome",
   "betaSeneRoot", "betaSeneRhizome", "rateSeneRoot", "rateSeneRhizome"]

/-- Output quantity names returned by
`senescence_coefficient_logistic::get_outputs()`. -/
def get_outputs : List String :=
  ["kSeneStem", "kSeneLeaf", "kSeneRoot", "kSeneRhizome"]

/-- Names bound from the input store by the constructor, in source order. -/
def bound_inputs : List String :=
  ["DVI", "alphaSeneStem", "alphaSeneLeaf", "betaSeneStem", "betaSeneLeaf",
   "rateSeneLeaf", "rateSeneStem", "alphaSeneRoot", "alphaSeneRhizome",
   "betaSeneRoot", "betaSeneRhizome", "rateSeneRoot", "rateSeneRhizome"]

/-- Names whose output slots the constructor binds and `do_operation` writes,
in the order of the `update` calls. -/
def written_outputs : List String :=
  ["kSeneStem", "kSeneLeaf", "kSeneRoot", "kSeneRhizome"]

/-- The store effect of `senescence_coefficient_logistic::do_operation`: four
`ksene` evaluations written to the four bound output slots. -/
def do_operation (qexp : ℚ → ℚ) (input output : Store) : Store :=
  let kSeneStem := ksene qexp (input "rateSeneStem") (input "alphaSeneStem")
    (input "betaSeneStem") (input "DVI")
  let kSeneLeaf := ksene qexp (input "rateSeneLeaf") (input "alphaSeneLeaf")
    (input "betaSeneLeaf") (input "DVI")
  let kSeneRoot := ksene qexp (input "rateSeneRoot") (input "alphaSeneRoot")
    (input "betaSeneRoot") (input "DVI")
  let kSeneRhizome := ksene qexp (input "rateSeneRhizome")
    (input "alphaSeneRhizome") (input "betaSeneRhizome") (input "DVI")
  ((((output.update "kSeneStem" kSeneStem).update "kSeneLeaf"
    kSeneLeaf).update "kSeneRoot" kSeneRoot).update "kSeneRhizome" kSeneRhizome)

end senescence_coefficient_logistic

namespace penman_monteith_leaf_temperature

/-- Input quantity names returned by
`penman_monteith_leaf_temperature::get_inputs()`. -/
def get_inputs : List String :=
  ["slope_water_vapor", "psychrometric_parameter",
   "latent_heat_vaporization_of_water", "leaf_boundary_layer_conductance",
   "leaf_stomatal_conductance", "leaf_net_irradiance",
   "vapor_density_deficit", "temp"]

/-- Output quantity names returned by
`penman_monteith_leaf_temperature::get_outputs()`. -/
def get_outputs : List String := ["leaf_temperature"]

/-- Names bound from the input store by the constructor, in source order. -/
def bound_inputs : List String :=
  ["slope_water_vapor", "psychrometric_parameter",
   "latent_heat_vaporization_of_water", "leaf_boundary_layer_conductance",
   "leaf_stomatal_conductance", "leaf_net_irradiance",
   "vapor_density_deficit", "temp"]

/-- Names whose output slots the constructor binds and `do_operation` writes. -/
def written_outputs : List String := ["leaf_temperature"]

/-- Volume of one mole of air, the `constexpr` 24.39e-3 m^3/mol from
`do_operation`. -/
def volume_of_one_mole_of_air : ℚ := 2439 / 100000

/-- The leaf temperature computed by
`penman_monteith_leaf_temperature::do_operation` before being written out. -/
def leaf_temperature_value (slope_water_vapor psychr_parameter LHV ga
    leaf_stomatal_conductance leaf_net_irradiance vapor_density_deficit
    air_temperature : ℚ) : ℚ :=
  let gc := leaf_stomatal_conductance * (1 / 1000) * volume_of_one_mole_of_air
  let delta_t :=
    (leaf_net_irradiance * (1 / ga + 1 / gc) - LHV * vapor_density_deficit) /
      (LHV * (slope_water_vapor + psychr_parameter * (1 + ga / gc)))
  air_temperature + delta_t

/-- The store effect of `penman_monteith_leaf_temperature::do_operation`: it
writes the computed leaf temperature to the `leaf_temperature` output slot. -/
def do_operation (input output : Store) : Store :=
  output.update "leaf_temperature"
    (leaf_temperature_value (input "slope_water_vapor")
      (input "psychrometric_parameter")
      (input "latent_heat_vaporization_of_water")
      (input "leaf_boundary_layer_conductance")
      (input "leaf_stomatal_conductance") (input "leaf_net_irradiance")
      (input "vapor_density_deficit") (input "temp"))

end penman_monteith_leaf_temperature

/-- State of a `dynamical_system` as seen by `integrator::integrate`: its
adaptive-compatibility report and its evaluation call counter. -/
structure dynamical_system where
  is_adaptive_compatible : Bool
  ncalls : Nat
deriving DecidableEq, Repr

/-- Modelled from the spec: `reset_ncalls()` zeroes the evaluation counter
(spec section 4.4); its body is not among the embedded sources. -/
def dynamical_system.reset_ncalls (sys : dynamical_system) : dynamical_system :=
  { sys with ncalls := 0 }

/-- Integrator state relevant to `integrator::integrate`: the configured
`check_adaptive_compatible` flag and the `integrate_method_has_been_called`
flag. -/
structure integrator where
  check_adaptive_compatible : Bool
  integrate_method_has_been_called : Bool
deriving DecidableEq, Repr

/-- Which branch an invocation of `integrator::integrate` took: the fallback
handler `handle_adaptive_incompatibility`, or the configured stepping
algorithm `do_integrate`. -/
inductive integrate_branch where
  | fallback_handler
  | stepping_algorithm
deriving DecidableEq, Repr

/-- The observable events of one `integrator::integrate` invocation, in
program order. -/
inductive integrate_event where
  | set_integrate_method_has_been_called
  | call_reset_ncalls
  | call_do_integrate
  | call_handle_adaptive_incompatibility
deriving DecidableEq, Repr

/-- The state effect of `integrator::integrate(sys)`: it sets
`integrate_method_has_been_called`, then either delegates to the fallback
handler (when `check_adaptive_compatible` is set and the system is not
adaptive-compatible) or calls `sys->reset_ncalls()` and runs `do_integrate`.
The result records the updated integrator, the updated system as left by the
`integrate` body itself, and the branch taken. -/
def integrator.integrate (self : integrator) (sys : dynamical_system) :
    integrator × dynamical_system × integrate_branch :=
  let self' := { self with integrate_method_has_been_called := true }
  if self.check_adaptive_compatible && !sys.is_adaptive_compatible then
    (self', sys, integrate_branch.fallback_handler)
  else
    (self', sys.reset_ncalls, integrate_branch.stepping_algorithm)

/-- The sequence of observable events of one `integrator::integrate`
invocation, read off the source in program order. -/
def integrator.integrate_events (self : integrator) (sys : dynamical_system) :
    List integrate_event :=
  integrate_event.set_integrate_method_has_been_called ::
    (if self.check_adaptive_compatible && !sys.is_adaptive_compatible then
      [integrate_event.call_handle_adaptive_incompatibility]
    else
      [integrate_event.call_reset_ncalls, integrate_event.call_do_integrate])

/-- The result of `lightME`, embedding the `Light_model` structure. -/
structure Light_model where
  direct_transmittance : ℚ
  diffuse_transmittance : ℚ
  direct_fraction : ℚ
  diffuse_fraction : ℚ
deriving DecidableEq, Repr

/-- Atmospheric pressure at sea level in Pa, from `framework/constants.h`. -/
def atmospheric_pressure_at_sea_level : ℚ := 101325

/-- The light macro-environment function `lightME` from `lightME.cpp`.  The C
library `pow` (used only on the above-horizon branch) is passed as the
explicit function parameter `qpow`. -/
def lightME (qpow : ℚ → ℚ → ℚ) (cosine_zenith_angle atmospheric_pressure
    atmospheric_transmittance atmospheric_scattering : ℚ) : Light_model :=
  let pressure_ratio := atmospheric_pressure / atmospheric_pressure_at_sea_level
  let direct_transmittance :=
    if cosine_zenith_angle ≤ 0 then 0
    else qpow atmospheric_transmittance (pressure_ratio / cosine_zenith_angle)
  let diffuse_transmittance :=
    if cosine_zenith_angle ≤ 0 then 1
    else atmospheric_scattering * (1 - direct_transmittance) *
      cosine_zenith_angle
  let direct_fraction :=
    direct_transmittance / (direct_transmittance + diffuse_transmittance)
  let diffuse_fraction := 1 - direct_fraction
  { direct_transmittance := direct_transmittance
    diffuse_transmittance := diffuse_transmittance
    direct_fraction := direct_fraction
    diffuse_fraction := diffuse_fraction }

namespace SystemSolverFactory

/-- The keys of `SystemSolverFactory::system_solver_creators`, in `std::map`
iteration order (sorted by key). -/
def system_solver_creators : List String :=
  ["Gro", "Gro_euler", "Gro_euler_odeint", "Gro_rk4", "Gro_rkck54",
   "Gro_rsnbrk"]

/-- The error message built by `SystemSolverFactory::operator()` when the
requested name is not a key of the creator map. -/
def unknown_solver_message (system_solver_name : String) : String :=
  "\"" ++ system_solver_name ++ "\"" ++ " was given as a system_solver name, " ++
    "but no system_solver with that name could be found.\n."

/-- The dispatch of `SystemSolverFactory::operator()`: a successful lookup
constructs the solver registered under the name (represented by the name
itself, the creators being external code), and a failed lookup throws
`std::out_of_range` with a message naming the offending string. -/
def factory_call (system_solver_name : String) : Except String String :=
  if system_solver_name ∈ system_solver_creators then
    Except.ok system_solver_name
  else
    Except.error (unknown_solver_message system_solver_name)

/-- `SystemSolverFactory::get_solvers()`: the keys of the creator map, pushed
in iteration order. -/
def get_solvers : List String := system_solver_creators

end SystemSolverFactory

/-- One string occurs inside another (the failed-lookup message "contains the
exact offending string"). -/
def contains_string (inner outer : String) : Prop :=
  ∃ before after, outer = before ++ inner ++ after

/-- The character for a single decimal digit `d < 10`. -/
def decDigitChar (d : Nat) : Char := Char.ofNat (48 + d)

/-- Fuel-bounded unpadded base-10 printing, most significant digit first; the
fuel only serves to make the recursion structural. -/
def decDigitsCore : Nat → Nat → List Char
  | 0, _ => []
  | fuel + 1, n =>
    if n < 10 then [decDigitChar n]
    else decDigitsCore fuel (n / 10) ++ [decDigitChar (n % 10)]

/-- Modelled from the spec: the decimal spelling of a layer index, "zero-based"
and "zero-padding not used" (spec sections 3 and 6); the generator body
(`multilayer_canopy_photosynthesis.h`) is not among the embedded sources.
This is ordinary unpadded base-10 printing, most significant digit first. -/
def decDigits (n : Nat) : List Char := decDigitsCore (n + 1) n

/-- Decoding a digit list back to the number it spells. -/
def decValue (l : List Char) : Nat :=
  l.foldl (fun a c => 10 * a + (c.toNat - 48)) 0

theorem decValue_append_digit (l : List Char) (c : Char) :
    decValue (l ++ [c]) = 10 * decValue l + (c.toNat - 48) := by
  simp [decValue, List.foldl_append]

theorem toNat_decDigitChar (d : Nat) (h : d < 10) :
    (decDigitChar d).toNat = 48 + d := by
  interval_cases d <;> decide

theorem decValue_decDigitsCore (fuel : Nat) :
    ∀ n, n < fuel → decValue (decDigitsCore fuel n) = n := by
  induction fuel with
  | zero => intro n h; omega
  | succ fuel ih =>
    intro n h
    rw [decDigitsCore]
    by_cases h10 : n < 10
    · simp only [h10, if_pos]
      simp [decValue, toNat_decDigitChar n h10]
    · simp only [h10, if_neg, not_false_iff]
      rw [decValue_append_digit,
        ih (n / 10) (by omega),
        toNat_decDigitChar (n % 10) (Nat.mod_lt n (by omega))]
      omega

theorem decValue_decDigits (n : Nat) : decValue (decDigits n) = n :=
  decValue_decDigitsCore (n + 1) n (Nat.lt_succ_self n)

theorem decDigits_injective : Function.Injective decDigits := by
  intro a b h
  have := decValue_decDigits a
  rw [h, decValue_decDigits] at this
  omega

theorem underscore_not_mem_decDigitsCore (fuel : Nat) :
    ∀ n, '_' ∉ decDigitsCore fuel n := by
  induction fuel with
  | zero => intro n h; simp [decDigitsCore] at h
  | succ fuel ih =>
    intro n
    rw [decDigitsCore]
    by_cases h10 : n < 10
    · simp only [h10, if_pos, List.mem_singleton]
      intro hc
      have := toNat_decDigitChar n h10
      rw [← hc, (by decide : ('_' : Char).toNat = 95)] at this
      omega
    · simp only [h10, if_neg, not_false_iff, List.mem_append, List.mem_singleton]
      intro hc
      rcases hc with hc | hc
      · exact ih (n / 10) hc
      · have := toNat_decDigitChar (n % 10) (Nat.mod_lt n (by omega))
        rw [← hc, (by decide : ('_' : Char).toNat = 95)] at this
        omega

theorem underscore_not_mem_decDigits (n : Nat) : '_' ∉ decDigits n :=
  underscore_not_mem_decDigitsCore (n + 1) n

/-- If two lists split as an underscore-free block, an underscore, and a
remainder, the splits coincide. -/
theorem underscore_split_inj (d1 : List Char) :
    ∀ (d2 r1 r2 : List Char), '_' ∉ d1 → '_' ∉ d2 →
    d1 ++ '_' :: r1 = d2 ++ '_' :: r2 → d1 = d2 ∧ r1 = r2 := by
  induction d1 with
  | nil =>
    intro d2 r1 r2 _ h2 e
    cases d2 with
    | nil => simpa using e
    | cons c t =>
      simp only [List.nil_append, List.cons_append, List.cons.injEq] at e
      exact absurd (e.1 ▸ List.mem_cons_self c t) h2
  | cons c t ih =>
    intro d2 r1 r2 h1 h2 e
    cases d2 with
    | nil =>
      simp only [List.cons_append, List.nil_append, List.cons.injEq] at e
      exact absurd (e.1 ▸ List.mem_cons_self c t) h1
    | cons c' t' =>
      simp only [List.cons_append, List.cons.injEq] at e
      obtain ⟨rfl, e2⟩ := e
      have ht := ih t' r1 r2 (fun hm => h1 (List.mem_cons_of_mem _ hm))
        (fun hm => h2 (List.mem_cons_of_mem _ hm)) e2
      exact ⟨by rw [ht.1], ht.2⟩

/-- Modelled from the spec: the layer-suffix spelling `_layer_<index>` with a
zero-based, unpadded decimal index (spec sections 3 and 6). -/
def layer_suffix_chars (k : Nat) : List Char :=
  ['_', 'l', 'a', 'y', 'e', 'r', '_'] ++ decDigits k

/-- Modelled from the spec: the generated multilayer quantity name
`<leaf_class_prefix><base_name>_layer_<index>` (spec sections 3 and 6 and the
doc comment of `multilayer_canopy_properties`); the generator body is not
among the embedded sources. -/
def multilayer_name (cls base : String) (k : Nat) : String :=
  String.mk (cls.data ++ base.data ++ layer_suffix_chars k)

/-- Modelled from the spec: the names generated for one multiclass-multilayer
base name — one name per (leaf class, layer) pair, leaf classes in declared
order, layers in increasing index order within a class. -/
def generate_multiclass_names (classes : List String) (base : String)
    (nlayers : Nat) : List String :=
  classes.flatMap (fun cls =>
    (List.range nlayers).map (fun k => multilayer_name cls base k))

/-- Modelled from the spec: the names generated for one pure-multilayer base
name — one name per layer, no leaf-class distinction. -/
def generate_pure_names (base : String) (nlayers : Nat) : List String :=
  (List.range nlayers).map (fun k => multilayer_name "" base k)

theorem multilayer_name_inj (cls1 cls2 base : String) (k1 k2 : Nat)
    (h : multilayer_name cls1 base k1 = multilayer_name cls2 base k2) :
    cls1 = cls2 ∧ k1 = k2 := by
  have hdata : cls1.data ++ base.data ++ layer_suffix_chars k1 =
      cls2.data ++ base.data ++ layer_suffix_chars k2 := congrArg String.data h
  have hrev := congrArg List.reverse hdata
  simp only [layer_suffix_chars, List.reverse_append, List.reverse_cons,
    List.reverse_nil, List.nil_append, List.append_assoc, List.cons_append] at hrev
  rw [show ∀ l : List Char,
      ('_' :: ('r' :: 'e' :: 'y' :: 'a' :: 'l' :: '_' :: l)) =
      '_' :: (['r', 'e', 'y', 'a', 'l', '_'] ++ l) from fun l => rfl,
    show ∀ l : List Char,
      ('_' :: ('r' :: 'e' :: 'y' :: 'a' :: 'l' :: '_' :: l)) =
      '_' :: (['r', 'e', 'y', 'a', 'l', '_'] ++ l) from fun l => rfl] at hrev
  have hsplit := underscore_split_inj (decDigits k1).reverse
    (decDigits k2).reverse _ _
    (fun hm => underscore_not_mem_decDigits k1 (List.mem_reverse.mp hm))
    (fun hm => underscore_not_mem_decDigits k2 (List.mem_reverse.mp hm)) hrev
  have hk : k1 = k2 :=
    decDigits_injective (List.reverse_injective hsplit.1)
  have hrest := hsplit.2
  have hcls : cls1.data = cls2.data := by
    have := List.append_cancel_left hrest
    have := List.append_cancel_left this
    exact List.reverse_injective this
  exact ⟨String.ext hcls, hk⟩

theorem multilayer_name_injective_in_layer (cls base : String) :
    Function.Injective (fun k => multilayer_name cls base k) := by
  intro k1 k2 h
  exact (multilayer_name_inj cls cls base k1 k2 h).2

theorem generate_multiclass_names_length (classes : List String)
    (base : String) (nlayers : Nat) :
    (generate_multiclass_names classes base nlayers).length =
      classes.length * nlayers := by
  induction classes with
  | nil => simp [generate_multiclass_names]
  | cons c cs ih =>
    simp only [generate_multiclass_names, List.flatMap_cons, List.length_append,
      List.length_map, List.length_range] at ih ⊢
    rw [ih, List.length_cons]
    ring

theorem generate_pure_names_length (base : String) (nlayers : Nat) :
    (generate_pure_names base nlayers).length = nlayers := by
  simp [generate_pure_names]

theorem generate_multiclass_names_nodup (classes : List String)
    (base : String) (nlayers : Nat) (h : classes.Nodup) :
    (generate_multiclass_names classes base nlayers).Nodup := by
  rw [generate_multiclass_names, List.nodup_flatMap]
  constructor
  · intro c _
    exact (List.nodup_range nlayers).map (multilayer_name_injective_in_layer c base)
  · refine h.imp ?_
    intro a b hab x hxa hxb
    simp only [List.mem_map, List.mem_range] at hxa hxb
    obtain ⟨k1, _, rfl⟩ := hxa
    obtain ⟨k2, _, he⟩ := hxb
    exact hab ((multilayer_name_inj b a base k2 k1 he).1.symm)

theorem generate_pure_names_nodup (base : String) (nlayers : Nat) :
    (generate_pure_names base nlayers).Nodup :=
  (List.nodup_range nlayers).map (multilayer_name_injective_in_layer "" base)

theorem generate_multiclass_names_mem (classes : List String) (base : String)
    (nlayers : Nat) (name : String) :
    name ∈ generate_multiclass_names classes base nlayers ↔
      ∃ cls ∈ classes, ∃ k, k < nlayers ∧ name = multilayer_name cls base k := by
  simp only [generate_multiclass_names, List.mem_flatMap, List.mem_map,
    List.mem_range]
  constructor
  · rintro ⟨c, hc, k, hk, rfl⟩
    exact ⟨c, hc, k, hk, rfl⟩
  · rintro ⟨c, hc, k, hk, rfl⟩
    exact ⟨c, hc, k, hk, rfl⟩

/-- C1: with `check_adaptive_compatible` set and an adaptive-incompatible
system, `integrator::integrate` takes the fallback-handler branch and never
calls `do_integrate`; in every other case it resets the system's evaluation
call counter to zero and then runs the configured stepping algorithm, the
reset preceding the stepping call in program order. -/
theorem integrate_branches (self : integrator) (sys : dynamical_system) :
    (self.check_adaptive_compatible = true →
      sys.is_adaptive_compatible = false →
      (self.integrate sys).2.2 = integrate_branch.fallback_handler ∧
      integrate_event.call_do_integrate ∉ self.integrate_events sys ∧
      integrate_event.call_handle_adaptive_incompatibility ∈
        self.integrate_events sys) ∧
    (self.check_adaptive_compatible = false ∨
        sys.is_adaptive_compatible = true →
      (self.integrate sys).2.2 = integrate_branch.stepping_algorithm ∧
      (self.integrate sys).2.1.ncalls = 0 ∧
      self.integrate_events sys =
        [integrate_event.set_integrate_method_has_been_called,
         integrate_event.call_reset_ncalls,
         integrate_event.call_do_integrate]) := by
  constructor
  · intro hc ha
    simp [integrator.integrate, integrator.integrate_events, hc, ha]
  · intro h
    rcases h with h | h <;>
      simp [integrator.integrate, integrator.integrate_events, h,
        dynamical_system.reset_ncalls]

/-- Witness for `integrate_branches` at concrete integrator and system
states. -/
theorem integrate_branches_witness :
    ((integrator.mk true false).integrate
        (dynamical_system.mk false 5)).2.2 =
      integrate_branch.fallback_handler ∧
    ((integrator.mk true false).integrate
        (dynamical_system.mk true 5)).2.1.ncalls = 0 :=
  ⟨((integrate_branches (integrator.mk true false)
      (dynamical_system.mk false 5)).1 rfl rfl).1,
   ((integrate_branches (integrator.mk true false)
      (dynamical_system.mk true 5)).2 (Or.inr rfl)).2.1⟩

/-- C8: `integrate` sets `integrate_method_has_been_called` on every
invocation; `reset_ncalls` is called exactly on the normal path, and on the
fallback path the `integrate` body itself leaves the system untouched before
delegating. -/
theorem integrate_flag_and_reset (self : integrator) (sys : dynamical_system) :
    (self.integrate sys).1.integrate_method_has_been_called = true ∧
    integrate_event.set_integrate_method_has_been_called ∈
      self.integrate_events sys ∧
    (integrate_event.call_reset_ncalls ∈ self.integrate_events sys ↔
      ¬(self.check_adaptive_compatible = true ∧
        sys.is_adaptive_compatible = false)) ∧
    (self.check_adaptive_compatible = true →
      sys.is_adaptive_compatible = false →
      (self.integrate sys).2.1 = sys) := by
  refine ⟨?_, ?_, ?_, ?_⟩
  · cases hc : self.check_adaptive_compatible <;>
      cases ha : sys.is_adaptive_compatible <;>
      simp [integrator.integrate, hc, ha]
  · cases hc : self.check_adaptive_compatible <;>
      cases ha : sys.is_adaptive_compatible <;>
      simp [integrator.integrate_events, hc, ha]
  · cases hc : self.check_adaptive_compatible <;>
      cases ha : sys.is_adaptive_compatible <;>
      simp [integrator.integrate_events, hc, ha]
  · intro hc ha
    simp [integrator.integrate, hc, ha]

/-- Witness for `integrate_flag_and_reset` at concrete states, including the
fallback path leaving the system untouched. -/
theorem integrate_flag_and_reset_witness :
    ((integrator.mk false false).integrate
        (dynamical_system.mk false 3)).1.integrate_method_has_been_called =
      true ∧
    ((integrator.mk true true).integrate (dynamical_system.mk false 3)).2.1 =
      dynamical_system.mk false 3 :=
  ⟨(integrate_flag_and_reset (integrator.mk false false)
      (dynamical_system.mk false 3)).1,
   (integrate_flag_and_reset (integrator.mk true true)
      (dynamical_system.mk false 3)).2.2.2 rfl rfl⟩

/-- C4: a name that is not a key of the creator map makes the factory fail
with an error message that contains the exact offending string; in particular
`"DoesNotExist"` does. -/
theorem factory_unknown_name (name : String)
    (h : name ∉ SystemSolverFactory.system_solver_creators) :
    SystemSolverFactory.factory_call name =
      Except.error (SystemSolverFactory.unknown_solver_message name) ∧
    contains_string name (SystemSolverFactory.unknown_solver_message name) := by
  constructor
  · simp [SystemSolverFactory.factory_call, h]
  · refine ⟨"\"", "\"" ++ " was given as a system_solver name, " ++
      "but no system_solver with that name could be found.\n.", ?_⟩
    simp [SystemSolverFactory.unknown_solver_message, String.append_assoc]

/-- Witness for `factory_unknown_name` at the name `"DoesNotExist"`. -/
theorem factory_unknown_name_witness :
    SystemSolverFactory.factory_call "DoesNotExist" =
      Except.error
        (SystemSolverFactory.unknown_solver_message "DoesNotExist") ∧
    contains_string "DoesNotExist"
      (SystemSolverFactory.unknown_solver_message "DoesNotExist") :=
  factory_unknown_name "DoesNotExist" (by decide)

/-- C10: the creator map holds exactly the six registered solver names,
`get_solvers()` returns exactly that set of names with no duplicates, and
each of the six names constructs without the unknown-name error. -/
theorem factory_registry_exact :
    SystemSolverFactory.get_solvers.Perm
      ["Gro", "Gro_euler", "Gro_euler_odeint", "Gro_rsnbrk", "Gro_rk4",
       "Gro_rkck54"] ∧
    SystemSolverFactory.get_solvers.Nodup ∧
    SystemSolverFactory.get_solvers = SystemSolverFactory.system_solver_creators ∧
    ∀ name ∈ SystemSolverFactory.get_solvers,
      SystemSolverFactory.factory_call name = Except.ok name := by
  refine ⟨by decide, by decide, rfl, ?_⟩
  intro name hn
  fin_cases hn <;> rfl

/-- C5: the single output `TTc` of `thermal_time_linear` is zero exactly when
`temp <= tbase` and `(temp - tbase)/24` otherwise; in particular `temp = 15,
tbase = 10` yields `5/24` and `temp = 5, tbase = 10` yields exactly `0`. -/
theorem thermal_time_linear_output (temp tbase : ℚ) :
    (thermal_time_linear.rate_per_hour temp tbase = 0 ↔ temp ≤ tbase) ∧
    (tbase < temp →
      thermal_time_linear.rate_per_hour temp tbase = (temp - tbase) / 24) ∧
    (0 ≤ thermal_time_linear.rate_per_hour temp tbase) ∧
    (∀ input output : Store,
      thermal_time_linear.do_operation input output "TTc" =
        thermal_time_linear.rate_per_hour (input "temp") (input "tbase")) ∧
    thermal_time_linear.rate_per_hour 15 10 = 5 / 24 ∧
    thermal_time_linear.rate_per_hour 5 10 = 0 := by
  refine ⟨?_, ?_, ?_, ?_, by norm_num [thermal_time_linear.rate_per_hour],
    by norm_num [thermal_time_linear.rate_per_hour]⟩
  · by_cases h : temp ≤ tbase
    · simp [thermal_time_linear.rate_per_hour, h]
    · simp only [thermal_time_linear.rate_per_hour, if_neg h,
        div_eq_zero_iff, sub_eq_zero]
      constructor
      · rintro (rfl | h24)
        · exact absurd le_rfl h
        · norm_num at h24
      · intro hle
        exact absurd hle h
  · intro h
    rw [thermal_time_linear.rate_per_hour, if_neg (not_le.mpr h)]
  · by_cases h : temp ≤ tbase
    · simp [thermal_time_linear.rate_per_hour, h]
    · rw [thermal_time_linear.rate_per_hour, if_neg h]
      have : 0 ≤ temp - tbase := by linarith [not_le.mp h]
      positivity
  · intro input output
    simp [thermal_time_linear.do_operation, Store.update]

/-- Witness for `thermal_time_linear_output` at the concrete inputs of the
claim. -/
theorem thermal_time_linear_output_witness :
    thermal_time_linear.rate_per_hour 15 10 = (15 - 10) / 24 ∧
    (thermal_time_linear.rate_per_hour 5 10 = 0 ↔ (5 : ℚ) ≤ 10) :=
  ⟨(thermal_time_linear_output 15 10).2.1 (by norm_num),
   (thermal_time_linear_output 5 10).1⟩

/-- C9: with the sun at or below the horizon (`cosine_zenith_angle <= 0`),
`lightME` returns direct transmittance `0`, diffuse transmittance `1`, direct
fraction `0` and diffuse fraction `1`, whatever the pressure, transmittance
and scattering arguments (and whatever `pow` computes). -/
theorem lightME_below_horizon (qpow : ℚ → ℚ → ℚ)
    (cosine_zenith_angle atmospheric_pressure atmospheric_transmittance
      atmospheric_scattering : ℚ) (h : cosine_zenith_angle ≤ 0) :
    lightME qpow cosine_zenith_angle atmospheric_pressure
        atmospheric_transmittance atmospheric_scattering =
      { direct_transmittance := 0, diffuse_transmittance := 1,
        direct_fraction := 0, diffuse_fraction := 1 } := by
  simp [lightME, h]

/-- Witness for `lightME_below_horizon` with the sun exactly at the horizon
and arbitrary atmospheric arguments. -/
theorem lightME_below_horizon_witness :
    lightME (fun a b => a + b) 0 12345 (7 / 10) (3 / 10) =
      { direct_transmittance := 0, diffuse_transmittance := 1,
        direct_fraction := 0, diffuse_fraction := 1 } :=
  lightME_below_horizon (fun a b => a + b) 0 12345 (7 / 10) (3 / 10) le_rfl

/-- C3: the steady modules `senescence_coefficient_logistic` and `ball_berry`
are pure: whenever two input stores agree on every declared input quantity
(in particular whenever their contents are identical), `do_operation` produces
identical output stores, for any interpretation of the external functions
`exp` and `ball_berry_gs`. -/
theorem steady_module_purity :
    (∀ (qexp : ℚ → ℚ) (in1 in2 output : Store),
      (∀ n ∈ senescence_coefficient_logistic.get_inputs, in1 n = in2 n) →
      senescence_coefficient_logistic.do_operation qexp in1 output =
        senescence_coefficient_logistic.do_operation qexp in2 output) ∧
    (∀ (gs : ℚ → ℚ → ℚ → ℚ → ℚ → ℚ → ℚ → ℚ → ℚ) (in1 in2 output : Store),
      (∀ n ∈ ball_berry.get_inputs, in1 n = in2 n) →
      ball_berry.do_operation gs in1 output =
        ball_berry.do_operation gs in2 output) := by
  constructor
  · intro qexp in1 in2 output h
    have h1 := h "DVI" (by decide)
    have h2 := h "alphaSeneStem" (by decide)
    have h3 := h "alphaSeneLeaf" (by decide)
    have h4 := h "betaSeneStem" (by decide)
    have h5 := h "betaSeneLeaf" (by decide)
    have h6 := h "rateSeneLeaf" (by decide)
    have h7 := h "rateSeneStem" (by decide)
    have h8 := h "alphaSeneRoot" (by decide)
    have h9 := h "alphaSeneRhizome" (by decide)
    have h10 := h "betaSeneRoot" (by decide)
    have h11 := h "betaSeneRhizome" (by decide)
    have h12 := h "rateSeneRoot" (by decide)
    have h13 := h "rateSeneRhizome" (by decide)
    simp only [senescence_coefficient_logistic.do_operation, h1, h2, h3, h4,
      h5, h6, h7, h8, h9, h10, h11, h12, h13]
  · intro gs in1 in2 output h
    have h1 := h "net_assimilation_rate" (by decide)
    have h2 := h "Catm" (by decide)
    have h3 := h "rh" (by decide)
    have h4 := h "b0" (by decide)
    have h5 := h "b1" (by decide)
    have h6 := h "gbw" (by decide)
    have h7 := h "leaf_temperature" (by decide)
    have h8 := h "temp" (by decide)
    simp only [ball_berry.do_operation, h1, h2, h3, h4, h5, h6, h7, h8]

/-- Witness for `steady_module_purity`: two stores that differ only on a
quantity outside the declared inputs produce identical outputs. -/
theorem steady_module_purity_witness :
    senescence_coefficient_logistic.do_operation (fun _ => 0) (fun _ => 1)
        (fun _ => 0) =
      senescence_coefficient_logistic.do_operation (fun _ => 0)
        (fun n => if n = "unrelated_quantity" then 2 else 1) (fun _ => 0) ∧
    ball_berry.do_operation (fun a _ _ _ _ _ _ _ => a) (fun _ => 1)
        (fun _ => 0) =
      ball_berry.do_operation (fun a _ _ _ _ _ _ _ => a)
        (fun n => if n = "unrelated_quantity" then 2 else 1) (fun _ => 0) :=
  ⟨steady_module_purity.1 (fun _ => 0) (fun _ => 1)
      (fun n => if n = "unrelated_quantity" then 2 else 1) (fun _ => 0)
      (by decide),
   steady_module_purity.2 (fun a _ _ _ _ _ _ _ => a) (fun _ => 1)
      (fun n => if n = "unrelated_quantity" then 2 else 1) (fun _ => 0)
      (by decide)⟩

/-- C7: evaluation only writes the declared outputs: every store entry whose
name is not among `declared_outputs` has the same value after `do_operation`
as before, for `ball_berry` (which writes only `leaf_stomatal_conductance`)
and `penman_monteith_leaf_temperature` (which writes only
`leaf_temperature`). -/
theorem do_operation_frame :
    (∀ (gs : ℚ → ℚ → ℚ → ℚ → ℚ → ℚ → ℚ → ℚ → ℚ) (input output : Store)
      (n : String), n ∉ ball_berry.get_outputs →
      ball_berry.do_operation gs input output n = output n) ∧
    (∀ (input output : Store) (n : String),
      n ∉ penman_monteith_leaf_temperature.get_outputs →
      penman_monteith_leaf_temperature.do_operation input output n =
        output n) := by
  constructor
  · intro gs input output n hn
    have h : n ≠ "leaf_stomatal_conductance" := by
      simpa [ball_berry.get_outputs] using hn
    simp [ball_berry.do_operation, Store.update, h]
  · intro input output n hn
    have h : n ≠ "leaf_temperature" := by
      simpa [penman_monteith_leaf_temperature.get_outputs] using hn
    simp [penman_monteith_leaf_temperature.do_operation, Store.update, h]

/-- Witness for `do_operation_frame`: an unrelated quantity keeps its value
across both evaluations. -/
theorem do_operation_frame_witness :
    ball_berry.do_operation (fun a _ _ _ _ _ _ _ => a) (fun _ => 1)
        (fun _ => 42) "lai" = 42 ∧
    penman_monteith_leaf_temperature.do_operation (fun _ => 1) (fun _ => 42)
        "lai" = 42 :=
  ⟨do_operation_frame.1 (fun a _ _ _ _ _ _ _ => a) (fun _ => 1) (fun _ => 42)
      "lai" (by decide),
   do_operation_frame.2 (fun _ => 1) (fun _ => 42) "lai" (by decide)⟩

/-- C6: for the embedded library modules (`thermal_time_linear`, `ball_berry`,
`senescence_coefficient_logistic`, `penman_monteith_leaf_temperature`) the
names bound from the input store at construction are exactly `get_inputs()`,
the output slots bound and written are exactly `get_outputs()`, evaluation
writes no name outside the declared outputs, and each declared output is
observably written at a concrete instance. -/
theorem declared_interface_matches :
    thermal_time_linear.bound_inputs = thermal_time_linear.get_inputs ∧
    ball_berry.bound_inputs = ball_berry.get_inputs ∧
    senescence_coefficient_logistic.bound_inputs =
      senescence_coefficient_logistic.get_inputs ∧
    penman_monteith_leaf_temperature.bound_inputs =
      penman_monteith_leaf_temperature.get_inputs ∧
    thermal_time_linear.written_outputs = thermal_time_linear.get_outputs ∧
    ball_berry.written_outputs = ball_berry.get_outputs ∧
    senescence_coefficient_logistic.written_outputs =
      senescence_coefficient_logistic.get_outputs ∧
    penman_monteith_leaf_temperature.written_outputs =
      penman_monteith_leaf_temperature.get_outputs ∧
    (∀ (input output : Store) (n : String),
      n ∉ thermal_time_linear.get_outputs →
      thermal_time_linear.do_operation input output n = output n) ∧
    (∀ (qexp : ℚ → ℚ) (input output : Store) (n : String),
      n ∉ senescence_coefficient_logistic.get_outputs →
      senescence_coefficient_logistic.do_operation qexp input output n =
        output n) ∧
    thermal_time_linear.do_operation (fun n => if n = "temp" then 15 else 10)
      (fun _ => 99) "TTc" = 5 / 24 ∧
    (∀ name ∈ senescence_coefficient_logistic.get_outputs,
      senescence_coefficient_logistic.do_operation (fun _ => 0) (fun _ => 1)
        (fun _ => 99) name = 1) ∧
    ball_berry.do_operation (fun _ _ _ _ _ _ _ _ => 7) (fun _ => 1)
      (fun _ => 99) "leaf_stomatal_conductance" = 7 ∧
    penman_monteith_leaf_temperature.do_operation (fun _ => 1) (fun _ => 99)
      "leaf_temperature" ≠ 99 := by
  refine ⟨rfl, rfl, rfl, rfl, rfl, rfl, rfl, rfl, ?_, ?_,
    by simp only [thermal_time_linear.do_operation,
        thermal_time_linear.rate_per_hour, Store.update,
        String.reduceEq, if_false, if_true, reduceIte]
       norm_num, ?_,
    by norm_num [ball_berry.do_operation, Store.update],
    by norm_num [penman_monteith_leaf_temperature.do_operation,
      penman_monteith_leaf_temperature.leaf_temperature_value,
      penman_monteith_leaf_temperature.volume_of_one_mole_of_air,
      Store.update]⟩
  · intro input output n hn
    have h : n ≠ "TTc" := by
      simpa [thermal_time_linear.get_outputs] using hn
    simp [thermal_time_linear.do_operation, Store.update, h]
  · intro qexp input output n hn
    have h : n ≠ "kSeneStem" ∧ n ≠ "kSeneLeaf" ∧ n ≠ "kSeneRoot" ∧
        n ≠ "kSeneRhizome" := by
      simpa [senescence_coefficient_logistic.get_outputs] using hn
    simp [senescence_coefficient_logistic.do_operation, Store.update,
      h.1, h.2.1, h.2.2.1, h.2.2.2]
  · intro name hname
    fin_cases hname <;>
      norm_num [senescence_coefficient_logistic.do_operation, ksene,
        Store.update]

/-- Witness for `declared_interface_matches`: the frame conjuncts evaluated at
concrete stores and an undeclared name. -/
theorem declared_interface_matches_witness :
    thermal_time_linear.do_operation (fun _ => 1) (fun _ => 8) "lai" = 8 ∧
    senescence_coefficient_logistic.do_operation (fun _ => 0) (fun _ => 1)
      (fun _ => 8) "lai" = 8 :=
  ⟨declared_interface_matches.2.2.2.2.2.2.2.2.1 (fun _ => 1) (fun _ => 8)
      "lai" (by decide),
   declared_interface_matches.2.2.2.2.2.2.2.2.2.1 (fun _ => 0) (fun _ => 1)
      (fun _ => 8) "lai" (by decide)⟩

/-- C2: for distinct leaf-class prefixes and a positive layer count, the
generator yields exactly `nlayers * |leaf_classes|` multiclass names and
exactly `nlayers` pure names per base name, each of the form
`<leaf_class_prefix><base_name>_layer_<k>` with `k` zero-based and unpadded,
with no two generated names colliding; in particular one multiclass base name
`incident_par` with classes `sunlit`/`shaded` and `nlayers = 10` yields
exactly the twenty names `sunlit_incident_par_layer_0..9` and
`shaded_incident_par_layer_0..9`. -/
theorem multilayer_generator_names (classes : List String) (base : String)
    (nlayers : Nat) (_hn : 0 < nlayers) (hcls : classes.Nodup) :
    (generate_multiclass_names classes base nlayers).length =
      nlayers * classes.length ∧
    (generate_multiclass_names classes base nlayers).Nodup ∧
    (generate_pure_names base nlayers).length = nlayers ∧
    (generate_pure_names base nlayers).Nodup ∧
    (∀ name ∈ generate_multiclass_names classes base nlayers,
      ∃ cls ∈ classes, ∃ k, k < nlayers ∧ name = multilayer_name cls base k) ∧
    generate_multiclass_names ["sunlit_", "shaded_"] "incident_par" 10 =
      ["sunlit_incident_par_layer_0", "sunlit_incident_par_layer_1",
       "sunlit_incident_par_layer_2", "sunlit_incident_par_layer_3",
       "sunlit_incident_par_layer_4", "sunlit_incident_par_layer_5",
       "sunlit_incident_par_layer_6", "sunlit_incident_par_layer_7",
       "sunlit_incident_par_layer_8", "sunlit_incident_par_layer_9",
       "shaded_incident_par_layer_0", "shaded_incident_par_layer_1",
       "shaded_incident_par_layer_2", "shaded_incident_par_layer_3",
       "shaded_incident_par_layer_4", "shaded_incident_par_layer_5",
       "shaded_incident_par_layer_6", "shaded_incident_par_layer_7",
       "shaded_incident_par_layer_8", "shaded_incident_par_layer_9"] := by
  refine ⟨?_, generate_multiclass_names_nodup classes base nlayers hcls,
    generate_pure_names_length base nlayers,
    generate_pure_names_nodup base nlayers,
    fun name h => (generate_multiclass_names_mem classes base nlayers name).mp h,
    by decide⟩
  rw [generate_multiclass_names_length]
  ring

/-- Witness for `multilayer_generator_names` at the ten-layer, two-class
instance of the claim. -/
theorem multilayer_generator_names_witness :
    (generate_multiclass_names ["sunlit_", "shaded_"] "incident_par"
        10).length = 20 ∧
    (generate_multiclass_names ["sunlit_", "shaded_"] "incident_par"
        10).Nodup :=
  ⟨(multilayer_generator_names ["sunlit_", "shaded_"] "incident_par" 10
      (by decide) (by decide)).1,
   (multilayer_generator_names ["sunlit_", "shaded_"] "incident_par" 10
      (by decide) (by decide)).2.1⟩
